import Mathlib

/-!
Verification of the prompt-optimization pipeline (`prompt_optimizer.py`).

The Python source is shallowly embedded: every text operation used by the
parsers (`str.split('\n')`, `str.strip()`, substring membership,
`startswith`/`endswith`, `'\n'.join`) is modelled by a structurally
recursive function over the character list of a `String`, and each
pipeline stage is a pure function from the accumulated state and the
external model's response to a partial-state update together with the
number of model invocations it performed.
-/

namespace PromptAgent

/-! ## Character-level text primitives (Python string operations) -/

/-- Whitespace characters removed by Python `str.strip()` (ASCII range). -/
def pyIsSpace (c : Char) : Bool :=
  c == ' ' || c == '\t' || c == '\n' || c == '\r' || c == '\x0b' || c == '\x0c'

/-- `str.split('\n')`: split a character list at every newline, keeping
empty pieces (Python semantics: `"".split('\n') = [""]`). -/
def splitOnNL : List Char → List (List Char)
  | [] => [[]]
  | c :: cs =>
    if c == '\n' then [] :: splitOnNL cs
    else
      match splitOnNL cs with
      | [] => [[c]]
      | l :: ls => (c :: l) :: ls

/-- `response.split('\n')` at the `String` level. -/
def splitLines (s : String) : List String :=
  (splitOnNL s.data).map (fun l => String.mk l)

/-- `'\n'.join(...)` on character lists. -/
def joinNLc : List (List Char) → List Char
  | [] => []
  | [l] => l
  | l :: ls => l ++ '\n' :: joinNLc ls

/-- `'\n'.join(...)` at the `String` level. -/
def joinNL (ls : List String) : String :=
  String.mk (joinNLc (ls.map (fun s => s.data)))

/-- `str.strip()` on character lists: drop leading and trailing whitespace. -/
def trimC (l : List Char) : List Char :=
  (((l.dropWhile pyIsSpace).reverse.dropWhile pyIsSpace)).reverse

/-- `str.strip()` at the `String` level. -/
def pyStrip (s : String) : String :=
  String.mk (trimC s.data)

/-- Is `p` a prefix of `l`? (Bool-valued, structural.) -/
def isPrefixC : List Char → List Char → Bool
  | [], _ => true
  | _ :: _, [] => false
  | a :: as, b :: bs => a == b && isPrefixC as bs

/-- Does `hay` contain `needle` as a contiguous substring? -/
def containsSubC (needle : List Char) : List Char → Bool
  | [] => isPrefixC needle []
  | c :: rest => isPrefixC needle (c :: rest) || containsSubC needle rest

/-- Python `sub in s`. -/
def pyContains (s sub : String) : Bool :=
  containsSubC sub.data s.data

/-- Python `s.startswith(t)`. -/
def pyStartsWith (s t : String) : Bool :=
  isPrefixC t.data s.data

/-- Python `s.endswith(t)`. -/
def pyEndsWith (s t : String) : Bool :=
  isPrefixC t.data.reverse s.data.reverse

/-- `', '.join` and friends: join with a separator. -/
def joinSep (sep : String) : List String → String
  | [] => ""
  | [x] => x
  | x :: xs => x ++ sep ++ joinSep sep xs

/-- Code-point comparison used to model Python string `sorted`. -/
def strLtC : List Char → List Char → Bool
  | [], [] => false
  | [], _ :: _ => true
  | _ :: _, [] => false
  | a :: as, b :: bs =>
    if Nat.blt a.toNat b.toNat then true
    else if Nat.blt b.toNat a.toNat then false
    else strLtC as bs

/-- Insert into an ascending list (stable). -/
def insertAsc (x : String) : List String → List String
  | [] => [x]
  | y :: ys => if strLtC y.data x.data then y :: insertAsc x ys else x :: y :: ys

/-- Python `sorted` on a list of strings (insertion sort). -/
def sortStrs : List String → List String
  | [] => []
  | x :: xs => insertAsc x (sortStrs xs)

/-- One comparison step of Python `max(l, key=len)`: keep the current
maximum unless the next element is strictly longer. -/
def lenMaxStep (acc y : String) : String :=
  if acc.length < y.length then y else acc

/-- Python `max(l, key=len)`: first element of maximal length
(strictly-greater comparison keeps the earlier element on ties). -/
def maxByLen (l : List String) : String :=
  match l with
  | [] => ""
  | x :: xs => xs.foldl lenMaxStep x

/-! ## Response parsers

`PromptGeneratorAgent._extract_prompt_from_response` and
`PromptImproverAgent._extract_alternatives`, translated line for line. -/

/-- Does the line contain the section marker `PROMPT:`? -/
def isPromptMarker (line : String) : Bool :=
  pyContains line "PROMPT:"

/-- Does the line terminate the prompt section? -/
def isTermLine (line : String) : Bool :=
  pyContains line "ADDITIONAL_EXAMPLES:" || pyContains line "DESIGN_PRINCIPLES:"

/-- The line scanner of `_extract_prompt_from_response`: `inSec` mirrors the
Python flag `in_prompt_section`. -/
def extractPromptLines : List String → Bool → List String
  | [], _ => []
  | line :: rest, inSec =>
    if isPromptMarker line then extractPromptLines rest true
    else if isTermLine line then extractPromptLines rest false
    else if inSec then line :: extractPromptLines rest true
    else extractPromptLines rest false

/-- `PromptGeneratorAgent._extract_prompt_from_response`. -/
def extractPromptFromResponse (response : String) : String :=
  if response = "" then ""
  else pyStrip (joinNL (extractPromptLines (splitLines response) false))

/-- A line opening a new alternative: contains `ALTERNATIVE` and `:`. -/
def isAltMarker (line : String) : Bool :=
  pyContains line "ALTERNATIVE" && pyContains line ":"

/-- A `[Focus: ...]` explanation line, skipped by the alternatives parser. -/
def isFocusLine (line : String) : Bool :=
  pyStartsWith (pyStrip line) "[Focus:" && pyEndsWith (pyStrip line) "]"

/-- Close the block accumulated in `cur`: emit its stripped join when
non-empty (`if alt_text: alternatives.append(alt_text)`). -/
def flushAlt (cur : List String) : List String :=
  if cur.isEmpty then []
  else
    let t := pyStrip (joinNL cur)
    if t = "" then [] else [t]

/-- The loop of `_extract_alternatives`: `cur` is `current_alternative`
(in order), `inAlt` is `in_alternative`. -/
def extractAltsLoop : List String → List String → Bool → List String
  | [], cur, inAlt => if inAlt then flushAlt cur else []
  | line :: rest, cur, inAlt =>
    if isAltMarker line then
      (if inAlt then flushAlt cur else []) ++ extractAltsLoop rest [] true
    else if inAlt && !(pyStrip line == "") then
      if isFocusLine line then extractAltsLoop rest cur inAlt
      else extractAltsLoop rest (cur ++ [line]) inAlt
    else extractAltsLoop rest cur inAlt

/-- `PromptImproverAgent._extract_alternatives`. -/
def extractAlternatives (response : String) : List String :=
  if response = "" then []
  else extractAltsLoop (splitLines response) [] false

/-! ## Pipeline state and partial updates

`PromptOptimizerState` (a TypedDict in the source).  Messages carry the
stored response contents; the `messages` channel uses the `add_messages`
reducer (append), every other channel is overwritten when a node's
returned dict carries the key. -/

structure ExampleKV where
  input : String
  output : String
deriving DecidableEq, Repr

structure PromptOptimizerState where
  messages : List String
  role : String
  basic_requirements : String
  examples : List ExampleKV
  current_prompt : String
  evaluations : List String
  alternative_prompts : List String
  final_prompt : String
  step : String
  model_type : String
deriving DecidableEq, Repr

/-- A node's returned dict: only the keys present are written back.
`messages` is appended by the `add_messages` reducer. -/
structure StateUpdate where
  messages : List String := []
  current_prompt : Option String := none
  evaluations : Option (List String) := none
  alternative_prompts : Option (List String) := none
  final_prompt : Option String := none
  step : Option String := none
deriving DecidableEq, Repr

/-- Merge a partial update into the accumulated state (the LangGraph
channel reducer: append for `messages`, overwrite-if-present elsewhere). -/
def applyUpdate (s : PromptOptimizerState) (u : StateUpdate) : PromptOptimizerState :=
  { s with
    messages := s.messages ++ u.messages
    current_prompt := u.current_prompt.getD s.current_prompt
    evaluations := u.evaluations.getD s.evaluations
    alternative_prompts := u.alternative_prompts.getD s.alternative_prompts
    final_prompt := u.final_prompt.getD s.final_prompt
    step := u.step.getD s.step }

/-- Outcome of one `model.ainvoke` network call: the response content, or
the exception it raised. -/
abbrev ModelResult := Except String String

deriving instance DecidableEq for Except

/-- The fixed fallback text, used verbatim both by the generate-prompt
node's fallback and by the finalize node's non-empty guarantee. -/
def genericFallbackPrompt : String :=
  "Please provide a clear and specific response to the user's request."

/-- Fixed text appended to the evaluations list when evaluation fails. -/
def basicEvalText : String :=
  "Basic evaluation: The prompt appears functional but may need refinement."

/-! ## Agents

Each agent method is a function from the state and the model-call outcome
to either an update dict or the exception it raises, paired with the
number of model invocations performed (0 when it raises before calling). -/

/-- `PromptGeneratorAgent.generate_prompt_engineering_guide`. -/
def generatePromptEngineeringGuide (s : PromptOptimizerState) (r : ModelResult) :
    Except String StateUpdate × Nat :=
  if s.role = "" then
    (Except.error "Role is required for generating prompt engineering guide", 0)
  else
    match r with
    | Except.error e =>
      (Except.error ("Failed to generate prompt engineering guide: " ++ e), 1)
    | Except.ok content =>
      (Except.ok { messages := [content], step := some "guide_generated" }, 1)

/-- Union of the JSON field names of all example inputs
(`all_variables.update(variables.keys())`); `parse` models `json.loads`
followed by `.keys()`, returning `none` when the input is not a JSON
object. -/
def collectVarsAux (parse : String → Option (List String)) :
    List ExampleKV → List String → Except String (List String)
  | [], acc => Except.ok acc
  | ex :: rest, acc =>
    match parse ex.input with
    | none => Except.error ("Example input must be a valid JSON object: " ++ ex.input)
    | some ks => collectVarsAux parse rest (acc ++ ks.filter (fun k => !(acc.contains k)))

/-- The `Example i: Variables/Output` block list joined with blank lines. -/
def examplesTextAux : Nat → List ExampleKV → List String
  | _, [] => []
  | i, ex :: rest =>
    ("Example " ++ toString (i + 1) ++ ":\nVariables: " ++ ex.input ++
      "\nOutput: " ++ ex.output) :: examplesTextAux (i + 1) rest

/-- `PromptGeneratorAgent.generate_prompt_from_examples`. -/
def generatePromptFromExamples (parse : String → Option (List String))
    (s : PromptOptimizerState) (r : ModelResult) : Except String StateUpdate × Nat :=
  if s.examples.isEmpty then
    match r with
    | Except.error e => (Except.error ("Failed to generate basic prompt: " ++ e), 1)
    | Except.ok content =>
      (Except.ok { messages := [content],
                   current_prompt := some (extractPromptFromResponse content),
                   step := some "prompt_generated" }, 1)
  else
    match collectVarsAux parse s.examples [] with
    | Except.error e => (Except.error e, 0)
    | Except.ok allVars =>
      let examplesText := joinSep "\n\n" (examplesTextAux 0 s.examples)
      if pyStrip examplesText = "" then
        (Except.error "Valid examples with input and output keys are required", 0)
      else
        match r with
        | Except.error e => (Except.error ("Failed to generate prompt from examples: " ++ e), 1)
        | Except.ok content =>
          let extracted := extractPromptFromResponse content
          let sortedVars := sortStrs allVars
          let missing := sortedVars.filter
            (fun v => !(pyContains extracted ("\x7b" ++ v ++ "\x7d")))
          let cp :=
            if missing.isEmpty then extracted
            else extracted ++ "\n\nAvailable variables: " ++
              joinSep ", " (sortedVars.map (fun v => "\x7b" ++ v ++ "\x7d"))
          (Except.ok { messages := [content],
                       current_prompt := some cp,
                       step := some "prompt_generated" }, 1)

/-- `PromptEvaluatorAgent.generate_evaluation_guide`. -/
def generateEvaluationGuide (s : PromptOptimizerState) (r : ModelResult) :
    Except String StateUpdate × Nat :=
  if s.role = "" then
    (Except.error "Role is required for generating evaluation guide", 0)
  else
    match r with
    | Except.error e =>
      (Except.error ("Failed to generate evaluation guide: " ++ e), 1)
    | Except.ok content =>
      (Except.ok { messages := [content], step := some "evaluation_guide_generated" }, 1)

/-- `PromptEvaluatorAgent.evaluate_prompt`. -/
def evaluatePrompt (s : PromptOptimizerState) (r : ModelResult) :
    Except String StateUpdate × Nat :=
  if s.current_prompt = "" then
    (Except.error "Current prompt is required for evaluation", 0)
  else
    match r with
    | Except.error e => (Except.error ("Failed to evaluate prompt: " ++ e), 1)
    | Except.ok content =>
      (Except.ok { messages := [content],
                   evaluations := some (s.evaluations ++ [content]),
                   step := some "prompt_evaluated" }, 1)

/-- `PromptImproverAgent.generate_improved_prompts`. -/
def generateImprovedPrompts (s : PromptOptimizerState) (r : ModelResult) :
    Except String StateUpdate × Nat :=
  if s.current_prompt = "" then
    (Except.error "Current prompt is required for generating improvements", 0)
  else if s.evaluations.isEmpty then
    (Except.error "Evaluation feedback is required for generating improvements", 0)
  else
    match r with
    | Except.error e => (Except.error ("Failed to generate improved prompts: " ++ e), 1)
    | Except.ok content =>
      let alts := extractAlternatives content
      let alts2 := if alts.isEmpty then [s.current_prompt] else alts
      (Except.ok { messages := [content],
                   alternative_prompts := some alts2,
                   step := some "alternatives_generated" }, 1)

/-! ## Workflow nodes

The `PromptOptimizerWorkflow._*_node` wrappers: catch any exception from
the agent call and substitute that node's fallback update. -/

/-- The type of an embedded workflow node. -/
def NodeFun := PromptOptimizerState → ModelResult → StateUpdate × Nat

/-- The fallback update of `_generate_guide_node`. -/
def guideFallback : StateUpdate :=
  { step := some "guide_skipped", messages := [] }

/-- The fallback update of `_generate_prompt_node`. -/
def promptFallback : StateUpdate :=
  { current_prompt := some genericFallbackPrompt, step := some "prompt_fallback" }

/-- The fallback update of `_generate_eval_guide_node`. -/
def evalGuideFallback : StateUpdate :=
  { step := some "eval_guide_skipped", messages := [] }

/-- The fallback update of `_evaluate_prompt_node` (appends a fixed string
to the evaluations accumulated so far). -/
def evaluateFallback (s : PromptOptimizerState) : StateUpdate :=
  { evaluations := some (s.evaluations ++ [basicEvalText]),
    step := some "evaluation_fallback" }

/-- The fallback update of `_improve_prompts_node` (reuses the current
prompt as the only alternative when it is non-empty). -/
def improveFallback (s : PromptOptimizerState) : StateUpdate :=
  { alternative_prompts := some (if s.current_prompt = "" then [] else [s.current_prompt]),
    step := some "improvement_fallback" }

/-- `PromptOptimizerWorkflow._generate_guide_node`. -/
def generateGuideNode (s : PromptOptimizerState) (r : ModelResult) : StateUpdate × Nat :=
  let p := generatePromptEngineeringGuide s r
  match p.1 with
  | Except.ok u => (u, p.2)
  | Except.error _ => (guideFallback, p.2)

/-- `PromptOptimizerWorkflow._generate_prompt_node`. -/
def generatePromptNode (parse : String → Option (List String))
    (s : PromptOptimizerState) (r : ModelResult) : StateUpdate × Nat :=
  let p := generatePromptFromExamples parse s r
  match p.1 with
  | Except.ok u => (u, p.2)
  | Except.error _ => (promptFallback, p.2)

/-- `PromptOptimizerWorkflow._generate_eval_guide_node`. -/
def generateEvalGuideNode (s : PromptOptimizerState) (r : ModelResult) : StateUpdate × Nat :=
  let p := generateEvaluationGuide s r
  match p.1 with
  | Except.ok u => (u, p.2)
  | Except.error _ => (evalGuideFallback, p.2)

/-- `PromptOptimizerWorkflow._evaluate_prompt_node`. -/
def evaluatePromptNode (s : PromptOptimizerState) (r : ModelResult) : StateUpdate × Nat :=
  let p := evaluatePrompt s r
  match p.1 with
  | Except.ok u => (u, p.2)
  | Except.error _ => (evaluateFallback s, p.2)

/-- `PromptOptimizerWorkflow._improve_prompts_node`. -/
def improvePromptsNode (s : PromptOptimizerState) (r : ModelResult) : StateUpdate × Nat :=
  let p := generateImprovedPrompts s r
  match p.1 with
  | Except.ok u => (u, p.2)
  | Except.error _ => (improveFallback s, p.2)

/-- `PromptOptimizerWorkflow._finalize_node`: pure selection logic, no
model call (hence invocation count 0). -/
def finalizeNode (s : PromptOptimizerState) (_ : ModelResult) : StateUpdate × Nat :=
  let fp := if s.alternative_prompts.isEmpty then s.current_prompt
            else maxByLen s.alternative_prompts
  let fp2 := if pyStrip fp = "" then genericFallbackPrompt else fp
  ({ final_prompt := some fp2, step := some "completed" }, 0)

/-! ## The compiled graph and the sequential driver -/

/-- Node names added by `_build_workflow`. -/
def workflowNodes : List String :=
  ["generate_guide", "generate_prompt", "generate_eval_guide",
   "evaluate_prompt", "improve_prompts", "finalize"]

/-- Edges added by `_build_workflow` (the LangGraph `START`/`END`
sentinels are the strings "START" and "END"). -/
def workflowEdges : List (String × String) :=
  [("START", "generate_guide"),
   ("generate_guide", "generate_prompt"),
   ("generate_prompt", "generate_eval_guide"),
   ("generate_eval_guide", "evaluate_prompt"),
   ("evaluate_prompt", "improve_prompts"),
   ("improve_prompts", "finalize"),
   ("finalize", "END")]

/-- The unique successor of a node, when one exists. -/
def nextNode (n : String) : Option String :=
  (workflowEdges.find? (fun e => e.1 == n)).map (fun e => e.2)

/-- Follow successor edges from `n` for at most `fuel` steps. -/
def traceFrom (n : String) : Nat → List String
  | 0 => [n]
  | fuel + 1 =>
    n :: (match nextNode n with
          | none => []
          | some m => traceFrom m fuel)

/-- The node functions, in the order the linear graph executes them. -/
def nodeFuns (parse : String → Option (List String)) : List NodeFun :=
  [generateGuideNode, generatePromptNode parse, generateEvalGuideNode,
   evaluatePromptNode, improvePromptsNode, finalizeNode]

/-- The response available for the next model call: head of the oracle
list, or a connection failure when the oracle is exhausted. -/
def headResult : List ModelResult → ModelResult
  | [] => Except.error "no response"
  | r :: _ => r

/-- Run the nodes sequentially: each consumes from the oracle list the
number of model calls it made; the trailing `Nat` is the total number of
model invocations of the run. -/
def runSeqC : List NodeFun → PromptOptimizerState → List ModelResult →
    PromptOptimizerState × List ModelResult × Nat
  | [], s, rs => (s, rs, 0)
  | f :: fs, s, rs =>
    let p := f s (headResult rs)
    let q := runSeqC fs (applyUpdate s p.1) (rs.drop p.2)
    (q.1, q.2.1, p.2 + q.2.2)

/-- The whole compiled workflow on an initial state and response oracle. -/
def runPipeline (parse : String → Option (List String))
    (s : PromptOptimizerState) (rs : List ModelResult) : PromptOptimizerState :=
  (runSeqC (nodeFuns parse) s rs).1

/-- Total number of model invocations performed by a pipeline run. -/
def pipelineCalls (parse : String → Option (List String))
    (s : PromptOptimizerState) (rs : List ModelResult) : Nat :=
  (runSeqC (nodeFuns parse) s rs).2.2

/-! ## `optimize_prompt`: input validation and workflow invocation -/

/-- `PromptRequest`. -/
structure PromptRequest where
  role : String
  basic_requirements : String
  examples : List ExampleKV := []
  additional_requirements : String := ""
  model_type : String := "openai"
deriving DecidableEq, Repr

/-- The result dict assembled from the final workflow state. -/
structure OptimizeResult where
  role : String
  model_type : String
  original_examples : List ExampleKV
  generated_prompt : String
  evaluations : List String
  alternative_prompts : List String
  final_recommendation : String
  step : String
deriving DecidableEq, Repr

/-- Set equality of JSON field-name lists (`current_fields != first_example_fields`
compares Python sets). -/
def fieldSetEq (a b : List String) : Bool :=
  a.all (fun x => b.contains x) && b.all (fun x => a.contains x)

/-- The example-validation loop of `optimize_prompt`: `firstFields` carries
the field-name set of the first example; returns the `ValueError` message
of the first failing check, or `none` when every example passes. -/
def validateExamples (parse : String → Option (List String)) :
    List ExampleKV → Option (List String) → Nat → Option String
  | [], _, _ => none
  | ex :: rest, firstFields, i =>
    if pyStrip ex.input = "" || pyStrip ex.output = "" then
      some ("Example " ++ toString (i + 1) ++ " input and output cannot be empty")
    else
      match parse ex.input with
      | none => some ("Example " ++ toString (i + 1) ++ " input must be a valid JSON object")
      | some fields =>
        match firstFields with
        | none => validateExamples parse rest (some fields) (i + 1)
        | some ff =>
          if fieldSetEq fields ff then validateExamples parse rest (some ff) (i + 1)
          else some ("Example " ++ toString (i + 1) ++
            " has inconsistent field names with the first example.")

/-- The initial state built by `optimize_prompt`. -/
def initialState (req : PromptRequest) : PromptOptimizerState :=
  { messages := []
    role := pyStrip req.role
    basic_requirements := req.basic_requirements
    examples := req.examples
    current_prompt := ""
    evaluations := []
    alternative_prompts := []
    final_prompt := ""
    step := "started"
    model_type := req.model_type }

/-- `PromptOptimizerWorkflow.optimize_prompt`: validate the request, then
run the compiled workflow; the `Nat` component counts the model
invocations performed (0 whenever validation raises `ValueError`). -/
def optimizePrompt (parse : String → Option (List String)) (req : PromptRequest)
    (rs : List ModelResult) : Except String OptimizeResult × Nat :=
  if pyStrip req.role = "" then
    (Except.error "Role cannot be empty", 0)
  else
    match validateExamples parse req.examples none 0 with
    | some e => (Except.error e, 0)
    | none =>
      let out := runSeqC (nodeFuns parse) (initialState req) rs
      let fin := out.1
      (Except.ok { role := fin.role
                   model_type := fin.model_type
                   original_examples := fin.examples
                   generated_prompt := fin.current_prompt
                   evaluations := fin.evaluations
                   alternative_prompts := fin.alternative_prompts
                   final_recommendation := fin.final_prompt
                   step := fin.step }, out.2.2)

/-! ## Concrete states for witnesses and counterexamples -/

/-- A concrete pipeline state with the given role, current prompt,
evaluations and alternatives, everything else fixed. -/
def mkState (role cp : String) (evals alts : List String) : PromptOptimizerState :=
  { messages := []
    role := role
    basic_requirements := "be clear"
    examples := []
    current_prompt := cp
    evaluations := evals
    alternative_prompts := alts
    final_prompt := ""
    step := "started"
    model_type := "openai" }

/-- A concrete pipeline state like `mkState "devs" "p" ["e"] []` but
carrying the given examples. -/
def mkStateWithExamples (exs : List ExampleKV) : PromptOptimizerState :=
  { mkState "devs" "p" ["e"] [] with examples := exs }

/-! ## Helper lemmas about the length-maximum fold -/

theorem foldl_lenMaxStep_mem (xs : List String) :
    ∀ acc : String, xs.foldl lenMaxStep acc = acc ∨ xs.foldl lenMaxStep acc ∈ xs := by
  induction xs with
  | nil => intro acc; left; rfl
  | cons y ys ih =>
    intro acc
    simp only [List.foldl_cons]
    rcases ih (lenMaxStep acc y) with h | h
    · rw [h]
      unfold lenMaxStep
      split
      · right; exact List.mem_cons_self _ _
      · left; rfl
    · right; exact List.mem_cons_of_mem _ h

theorem foldl_lenMaxStep_le (xs : List String) :
    ∀ acc : String, acc.length ≤ (xs.foldl lenMaxStep acc).length ∧
      ∀ x ∈ xs, x.length ≤ (xs.foldl lenMaxStep acc).length := by
  induction xs with
  | nil => intro acc; exact ⟨le_refl _, by intro x hx; cases hx⟩
  | cons y ys ih =>
    intro acc
    simp only [List.foldl_cons]
    constructor
    · have h1 : acc.length ≤ (lenMaxStep acc y).length := by
        unfold lenMaxStep; split <;> omega
      exact le_trans h1 (ih (lenMaxStep acc y)).1
    · intro x hx
      rcases List.mem_cons.mp hx with rfl | hx
      · have h1 : x.length ≤ (lenMaxStep acc x).length := by
          unfold lenMaxStep; split <;> omega
        exact le_trans h1 (ih (lenMaxStep acc x)).1
      · exact (ih (lenMaxStep acc y)).2 x hx

theorem maxByLen_cons (x : String) (xs : List String) :
    maxByLen (x :: xs) = xs.foldl lenMaxStep x := rfl

theorem maxByLen_mem (x : String) (xs : List String) : maxByLen (x :: xs) ∈ x :: xs := by
  rw [maxByLen_cons]
  rcases foldl_lenMaxStep_mem xs x with h | h
  · rw [h]; exact List.mem_cons_self _ _
  · exact List.mem_cons_of_mem _ h

theorem maxByLen_le (x : String) (xs : List String) :
    ∀ y ∈ x :: xs, y.length ≤ (maxByLen (x :: xs)).length := by
  intro y hy
  rw [maxByLen_cons]
  rcases List.mem_cons.mp hy with rfl | hy
  · exact (foldl_lenMaxStep_le xs y).1
  · exact (foldl_lenMaxStep_le xs x).2 y hy

/-! ## The claims -/

/-- Claim C3: the compiled workflow is a fixed linear chain: following
the unique successor edge from START visits the six stages
generate-guide, generate-prompt, generate-eval-guide, evaluate, improve,
finalize exactly once each, in that order, and then END; no node has two
outgoing edges (no branching) and END has none (no cycle back). -/
theorem C3_workflow_linear_six_stages :
    traceFrom "START" 7 = "START" :: workflowNodes ++ ["END"] ∧
    ("START" :: workflowNodes ++ ["END"]).Nodup ∧
    (∀ n ∈ "START" :: workflowNodes, (workflowEdges.filter (fun e => e.1 == n)).length = 1) ∧
    (workflowEdges.filter (fun e => e.1 == "END")).length = 0 ∧
    workflowEdges.length = 7 := by
  decide

/-- Claim C1 (amended): when `alternative_prompts` is non-empty, finalize
selects its first element of maximal length and stores it as
`final_prompt`, unless that element strips to the empty string, in which
case the fixed default text is substituted; when `alternative_prompts` is
empty, `current_prompt` is stored, again with the default substituted when
it strips to empty. -/
theorem C1_finalize_longest_alternative (s : PromptOptimizerState) (r : ModelResult) :
    (s.alternative_prompts ≠ [] →
      maxByLen s.alternative_prompts ∈ s.alternative_prompts ∧
      (∀ x ∈ s.alternative_prompts, x.length ≤ (maxByLen s.alternative_prompts).length) ∧
      (finalizeNode s r).1.final_prompt =
        some (if pyStrip (maxByLen s.alternative_prompts) = "" then genericFallbackPrompt
              else maxByLen s.alternative_prompts)) ∧
    (s.alternative_prompts = [] →
      (finalizeNode s r).1.final_prompt =
        some (if pyStrip s.current_prompt = "" then genericFallbackPrompt
              else s.current_prompt)) := by
  constructor
  · intro hne
    obtain ⟨x, xs, hx⟩ : ∃ x xs, s.alternative_prompts = x :: xs := by
      cases h : s.alternative_prompts with
      | nil => exact absurd h hne
      | cons a as => exact ⟨a, as, rfl⟩
    refine ⟨hx ▸ maxByLen_mem x xs, hx ▸ maxByLen_le x xs, ?_⟩
    simp [finalizeNode, hx]
  · intro he
    simp [finalizeNode, he]

/-- Claim C1 counterexample: with `alternative_prompts = ["   "]` the
element of maximal length is the whitespace string, but finalize stores
the fixed default text, which is not an element of the list. -/
theorem C1_counterexample :
    (finalizeNode (mkState "r" "current" [] ["   "]) (Except.ok "")).1.final_prompt =
      some genericFallbackPrompt ∧
    genericFallbackPrompt ∉ (mkState "r" "current" [] ["   "]).alternative_prompts := by
  decide

/-- Claim C1 witness: the amended selection rule evaluated on a concrete
two-alternative state. -/
theorem C1_witness :
    maxByLen (mkState "r" "c" [] ["short", "the longer one"]).alternative_prompts ∈
      (mkState "r" "c" [] ["short", "the longer one"]).alternative_prompts ∧
    (∀ x ∈ (mkState "r" "c" [] ["short", "the longer one"]).alternative_prompts,
      x.length ≤ (maxByLen (mkState "r" "c" [] ["short", "the longer one"]).alternative_prompts).length) ∧
    (finalizeNode (mkState "r" "c" [] ["short", "the longer one"]) (Except.ok "")).1.final_prompt =
      some (if pyStrip (maxByLen (mkState "r" "c" [] ["short", "the longer one"]).alternative_prompts) = ""
            then genericFallbackPrompt
            else maxByLen (mkState "r" "c" [] ["short", "the longer one"]).alternative_prompts) :=
  (C1_finalize_longest_alternative (mkState "r" "c" [] ["short", "the longer one"])
    (Except.ok "")).1 (by decide)

/-- Claim C9: the finalize stage always writes a `final_prompt` that is
not empty and not whitespace-only; whenever the selected candidate strips
to the empty string the fixed default text is substituted. -/
theorem C9_final_prompt_nonempty (s : PromptOptimizerState) (r : ModelResult) :
    ∃ f, (finalizeNode s r).1.final_prompt = some f ∧ pyStrip f ≠ "" ∧
      (pyStrip (if s.alternative_prompts.isEmpty then s.current_prompt
                else maxByLen s.alternative_prompts) = "" →
        f = genericFallbackPrompt) := by
  have hsel : (finalizeNode s r).1.final_prompt =
      some (if pyStrip (if s.alternative_prompts.isEmpty then s.current_prompt
                        else maxByLen s.alternative_prompts) = ""
            then genericFallbackPrompt
            else (if s.alternative_prompts.isEmpty then s.current_prompt
                  else maxByLen s.alternative_prompts)) := rfl
  by_cases h : pyStrip (if s.alternative_prompts.isEmpty then s.current_prompt
      else maxByLen s.alternative_prompts) = ""
  · exact ⟨genericFallbackPrompt, by rw [hsel, if_pos h], by decide, fun _ => rfl⟩
  · exact ⟨_, by rw [hsel, if_neg h], h, fun hc => absurd hc h⟩

/-- Claim C9 witness: the non-emptiness guarantee evaluated on a state
whose only candidate is whitespace. -/
theorem C9_witness :
    ∃ f, (finalizeNode (mkState "r" " " [] []) (Except.ok "x")).1.final_prompt = some f ∧
      pyStrip f ≠ "" ∧
      (pyStrip (if (mkState "r" " " [] []).alternative_prompts.isEmpty
                then (mkState "r" " " [] []).current_prompt
                else maxByLen (mkState "r" " " [] []).alternative_prompts) = "" →
        f = genericFallbackPrompt) :=
  C9_final_prompt_nonempty (mkState "r" " " [] []) (Except.ok "x")

/-- A string whose first character is not whitespace does not strip to
the empty string. -/
theorem pyStrip_ne_empty_of_head (s : String) (c : Char) (hc : pyIsSpace c = false)
    (hd : ∃ t, s.data = c :: t) : pyStrip s ≠ "" := by
  obtain ⟨t, ht⟩ := hd
  intro hcon
  have hdata : trimC s.data = [] := congrArg String.data hcon
  rw [ht] at hdata
  unfold trimC at hdata
  rw [List.dropWhile_cons, if_neg (by simp [hc])] at hdata
  have h1 : (c :: t).reverse.dropWhile pyIsSpace = [] := by
    cases hx : (c :: t).reverse.dropWhile pyIsSpace with
    | nil => rfl
    | cons a as =>
      rw [hx] at hdata
      simp at hdata
  have h2 := List.dropWhile_eq_nil_iff.mp h1 c (by simp)
  rw [hc] at h2
  cases h2

/-- With at least one example, the `Example i:` text block always starts
with the letter E, so the `examples_text.strip()` emptiness check of
`generate_prompt_from_examples` can never fire. -/
theorem examplesText_strip_ne (i : Nat) (e : ExampleKV) (rest : List ExampleKV) :
    pyStrip (joinSep "\n\n" (examplesTextAux i (e :: rest))) ≠ "" := by
  apply pyStrip_ne_empty_of_head _ 'E' (by decide)
  have hblk : ∃ t2, ("Example " ++ toString (i + 1) ++ ":\nVariables: " ++ e.input ++
      "\nOutput: " ++ e.output).data = 'E' :: t2 := ⟨_, rfl⟩
  have hunf : examplesTextAux i (e :: rest) =
      ("Example " ++ toString (i + 1) ++ ":\nVariables: " ++ e.input ++
        "\nOutput: " ++ e.output) :: examplesTextAux (i + 1) rest := rfl
  rw [hunf]
  cases hbs : examplesTextAux (i + 1) rest with
  | nil => exact hblk
  | cons b bs =>
    obtain ⟨t2, ht2⟩ := hblk
    refine ⟨(t2 ++ "\n\n".data) ++ (joinSep "\n\n" (b :: bs)).data, ?_⟩
    show ((("Example " ++ toString (i + 1) ++ ":\nVariables: " ++ e.input ++
      "\nOutput: " ++ e.output) ++ "\n\n") ++ joinSep "\n\n" (b :: bs)).data = _
    rw [String.data_append, String.data_append, ht2, List.cons_append, List.cons_append]

/-- When the state has examples and every example input parses as a JSON
object, the generate-prompt node performs exactly one model call. -/
theorem generatePromptNode_calls_nonempty (parse : String → Option (List String))
    (s : PromptOptimizerState) (r : ModelResult)
    (he : s.examples ≠ []) (hv : ∃ v, collectVarsAux parse s.examples [] = Except.ok v) :
    (generatePromptNode parse s r).2 = 1 := by
  obtain ⟨e, rest, hex⟩ : ∃ e rest, s.examples = e :: rest := by
    cases hx : s.examples with
    | nil => exact absurd hx he
    | cons a as => exact ⟨a, as, rfl⟩
  obtain ⟨v, hcv⟩ := hv
  have hempty : s.examples.isEmpty = false := by
    rw [hex]
    rfl
  have htext : pyStrip (joinSep "\n\n" (examplesTextAux 0 s.examples)) ≠ "" := by
    rw [hex]
    exact examplesText_strip_ne 0 e rest
  cases r <;> simp [generatePromptNode, generatePromptFromExamples, hempty, hcv, htext]

/-- Claim C5 (amended): each of the first five stages performs at most
one model invocation — exactly one whenever its agent's pre-call
validation passes — and the finalize stage performs none. -/
theorem C5_at_most_one_call (parse : String → Option (List String))
    (s : PromptOptimizerState) (r : ModelResult) :
    (generateGuideNode s r).2 ≤ 1 ∧
    (generatePromptNode parse s r).2 ≤ 1 ∧
    (generateEvalGuideNode s r).2 ≤ 1 ∧
    (evaluatePromptNode s r).2 ≤ 1 ∧
    (improvePromptsNode s r).2 ≤ 1 ∧
    (finalizeNode s r).2 = 0 ∧
    (s.role ≠ "" →
      (generateGuideNode s r).2 = 1 ∧ (generateEvalGuideNode s r).2 = 1) ∧
    (s.examples = [] → (generatePromptNode parse s r).2 = 1) ∧
    (s.examples ≠ [] → (∃ v, collectVarsAux parse s.examples [] = Except.ok v) →
      (generatePromptNode parse s r).2 = 1) ∧
    (s.current_prompt ≠ "" → (evaluatePromptNode s r).2 = 1) ∧
    (s.current_prompt ≠ "" → s.evaluations ≠ [] → (improvePromptsNode s r).2 = 1) := by
  have hguide : ∀ h : s.role ≠ "", (generateGuideNode s r).2 = 1 := by
    intro h
    cases r <;> simp [generateGuideNode, generatePromptEngineeringGuide, h]
  have hevalg : ∀ h : s.role ≠ "", (generateEvalGuideNode s r).2 = 1 := by
    intro h
    cases r <;> simp [generateEvalGuideNode, generateEvaluationGuide, h]
  have hev : ∀ h : s.current_prompt ≠ "", (evaluatePromptNode s r).2 = 1 := by
    intro h
    cases r <;> simp [evaluatePromptNode, evaluatePrompt, h]
  have himp : ∀ (h1 : s.current_prompt ≠ "") (h2 : s.evaluations ≠ []),
      (improvePromptsNode s r).2 = 1 := by
    intro h1 h2
    cases r <;>
      simp [improvePromptsNode, generateImprovedPrompts, h1, List.isEmpty_iff, h2]
  have hgen : s.examples = [] → (generatePromptNode parse s r).2 = 1 := by
    intro h
    cases r <;> simp [generatePromptNode, generatePromptFromExamples, h]
  refine ⟨?_, ?_, ?_, ?_, ?_, rfl, fun h => ⟨hguide h, hevalg h⟩, hgen,
    fun he hv => generatePromptNode_calls_nonempty parse s r he hv, hev, himp⟩
  · by_cases h : s.role = ""
    · simp [generateGuideNode, generatePromptEngineeringGuide, h]
    · rw [hguide h]
  · by_cases h : s.examples = []
    · rw [hgen h]
    · rcases hc : collectVarsAux parse s.examples [] with e | v
      · simp [generatePromptNode, generatePromptFromExamples, List.isEmpty_iff, h, hc]
      · by_cases ht : pyStrip (joinSep "\n\n" (examplesTextAux 0 s.examples)) = "" <;>
          cases r <;>
          simp [generatePromptNode, generatePromptFromExamples, List.isEmpty_iff, h, hc, ht]
  · by_cases h : s.role = ""
    · simp [generateEvalGuideNode, generateEvaluationGuide, h]
    · rw [hevalg h]
  · by_cases h : s.current_prompt = ""
    · simp [evaluatePromptNode, evaluatePrompt, h]
    · rw [hev h]
  · by_cases h1 : s.current_prompt = ""
    · simp [improvePromptsNode, generateImprovedPrompts, h1]
    · by_cases h2 : s.evaluations = []
      · simp [improvePromptsNode, generateImprovedPrompts, h1, List.isEmpty_iff, h2]
      · rw [himp h1 h2]

/-- Claim C5 counterexample: on a concrete state the finalize step
performs zero model invocations, not one. -/
theorem C5_counterexample :
    (finalizeNode (mkState "r" "p" ["e"] ["a"]) (Except.ok "resp")).2 = 0 ∧
    (finalizeNode (mkState "r" "p" ["e"] ["a"]) (Except.ok "resp")).2 ≠ 1 := by
  decide

/-- Claim C5 witness: the exactly-one-call conditions discharged on
concrete states — one with a non-empty role, one with a non-empty
example list whose input parses as a JSON object. -/
theorem C5_witness :
    ((generateGuideNode (mkState "devs" "p" ["e"] []) (Except.ok "resp")).2 = 1 ∧
      (generateEvalGuideNode (mkState "devs" "p" ["e"] []) (Except.ok "resp")).2 = 1) ∧
    (generatePromptNode (fun _ => some ["a"])
      (mkStateWithExamples [{ input := "in1", output := "o1" }]) (Except.ok "resp")).2 = 1 :=
  ⟨(C5_at_most_one_call (fun _ => none) (mkState "devs" "p" ["e"] [])
      (Except.ok "resp")).2.2.2.2.2.2.1 (by decide),
   (C5_at_most_one_call (fun _ => some ["a"])
      (mkStateWithExamples [{ input := "in1", output := "o1" }])
      (Except.ok "resp")).2.2.2.2.2.2.2.2.1 (by decide) ⟨["a"], rfl⟩⟩

/-- Claim C4 (amended): the fallbacks of the guide, generate-prompt and
eval-guide stages are static constants, identical across all states; but
the evaluate fallback appends a fixed string to the evaluations
accumulated in the state, and the improve fallback is the singleton
`[current_prompt]` (empty list when `current_prompt` is empty), so those
two fallbacks do depend on the accumulated pipeline state. -/
theorem C4_fallback_staticness (parse : String → Option (List String))
    (s1 s2 : PromptOptimizerState) (r1 r2 : ModelResult) :
    ((∃ e, (generatePromptEngineeringGuide s1 r1).1 = Except.error e) →
      (∃ e, (generatePromptEngineeringGuide s2 r2).1 = Except.error e) →
      (generateGuideNode s1 r1).1 = (generateGuideNode s2 r2).1) ∧
    ((∃ e, (generatePromptFromExamples parse s1 r1).1 = Except.error e) →
      (∃ e, (generatePromptFromExamples parse s2 r2).1 = Except.error e) →
      (generatePromptNode parse s1 r1).1 = (generatePromptNode parse s2 r2).1) ∧
    ((∃ e, (generateEvaluationGuide s1 r1).1 = Except.error e) →
      (∃ e, (generateEvaluationGuide s2 r2).1 = Except.error e) →
      (generateEvalGuideNode s1 r1).1 = (generateEvalGuideNode s2 r2).1) ∧
    ((∃ e, (evaluatePrompt s1 r1).1 = Except.error e) →
      (evaluatePromptNode s1 r1).1 = evaluateFallback s1) ∧
    ((∃ e, (generateImprovedPrompts s1 r1).1 = Except.error e) →
      (improvePromptsNode s1 r1).1 = improveFallback s1) := by
  refine ⟨?_, ?_, ?_, ?_, ?_⟩
  · rintro ⟨e1, h1⟩ ⟨e2, h2⟩
    simp [generateGuideNode, h1, h2]
  · rintro ⟨e1, h1⟩ ⟨e2, h2⟩
    simp [generatePromptNode, h1, h2]
  · rintro ⟨e1, h1⟩ ⟨e2, h2⟩
    simp [generateEvalGuideNode, h1, h2]
  · rintro ⟨e1, h1⟩
    simp [evaluatePromptNode, h1]
  · rintro ⟨e1, h1⟩
    simp [improvePromptsNode, h1]

/-- Claim C4 counterexample: on concrete failing calls, the improve
fallback differs between two states that differ only in
`current_prompt`, and the evaluate fallback differs between two states
that differ only in the prior evaluations list — so those fallbacks are
not static constants. -/
theorem C4_counterexample :
    (improvePromptsNode (mkState "r" "A" ["e"] []) (Except.error "boom")).1.alternative_prompts ≠
      (improvePromptsNode (mkState "r" "B" ["e"] []) (Except.error "boom")).1.alternative_prompts ∧
    (evaluatePromptNode (mkState "r" "p" ["prior"] []) (Except.error "boom")).1.evaluations ≠
      (evaluatePromptNode (mkState "r" "p" [] []) (Except.error "boom")).1.evaluations := by
  decide

/-- Claim C4 witness: the static guide fallback evaluated on two distinct
states whose agent calls both raise. -/
theorem C4_witness :
    (generateGuideNode (mkState "" "A" [] []) (Except.error "x")).1 =
      (generateGuideNode (mkState "" "B" ["e"] ["a"]) (Except.error "y")).1 :=
  (C4_fallback_staticness (fun _ => none) (mkState "" "A" [] [])
      (mkState "" "B" ["e"] ["a"]) (Except.error "x") (Except.error "y")).1
    ⟨_, rfl⟩ ⟨_, rfl⟩

/-- The final state of every pipeline run carries the finalize step
marker: no stage failure aborts the six-stage sequence. -/
theorem runPipeline_step_completed (parse : String → Option (List String))
    (s : PromptOptimizerState) (rs : List ModelResult) :
    (runPipeline parse s rs).step = "completed" := by
  simp [runPipeline, runSeqC, nodeFuns, applyUpdate, finalizeNode]

/-- Claim C2: for every stage except finalize, when the underlying agent
call raises, the node substitutes that stage's fallback update and the
pipeline still runs to completion — the final state of every run, under
every pattern of failures, carries the finalize marker `completed`. -/
theorem C2_stage_failure_fallback (parse : String → Option (List String))
    (s : PromptOptimizerState) (r : ModelResult) (rs : List ModelResult) :
    ((∃ e, (generatePromptEngineeringGuide s r).1 = Except.error e) →
      (generateGuideNode s r).1 = guideFallback) ∧
    ((∃ e, (generatePromptFromExamples parse s r).1 = Except.error e) →
      (generatePromptNode parse s r).1 = promptFallback) ∧
    ((∃ e, (generateEvaluationGuide s r).1 = Except.error e) →
      (generateEvalGuideNode s r).1 = evalGuideFallback) ∧
    ((∃ e, (evaluatePrompt s r).1 = Except.error e) →
      (evaluatePromptNode s r).1 = evaluateFallback s) ∧
    ((∃ e, (generateImprovedPrompts s r).1 = Except.error e) →
      (improvePromptsNode s r).1 = improveFallback s) ∧
    (runPipeline parse s rs).step = "completed" := by
  refine ⟨?_, ?_, ?_, ?_, ?_, runPipeline_step_completed parse s rs⟩
  · rintro ⟨e, h⟩; simp [generateGuideNode, h]
  · rintro ⟨e, h⟩; simp [generatePromptNode, h]
  · rintro ⟨e, h⟩; simp [generateEvalGuideNode, h]
  · rintro ⟨e, h⟩; simp [evaluatePromptNode, h]
  · rintro ⟨e, h⟩; simp [improvePromptsNode, h]

/-- Claim C2 witness: on a concrete state, a raising evaluation call
produces exactly the evaluate fallback, and a run whose every model call
fails still completes. -/
theorem C2_witness :
    (evaluatePromptNode (mkState "r" "p" ["prior"] []) (Except.error "boom")).1 =
      evaluateFallback (mkState "r" "p" ["prior"] []) ∧
    (runPipeline (fun _ => none) (mkState "r" "" [] [])
      [Except.error "a", Except.error "b", Except.error "c",
       Except.error "d", Except.error "e"]).step = "completed" :=
  ⟨(C2_stage_failure_fallback (fun _ => none) (mkState "r" "p" ["prior"] [])
      (Except.error "boom") []).2.2.2.1 ⟨_, rfl⟩,
   (C2_stage_failure_fallback (fun _ => none) (mkState "r" "" [] [])
      (Except.error "boom")
      [Except.error "a", Except.error "b", Except.error "c",
       Except.error "d", Except.error "e"]).2.2.2.2.2⟩

/-! ## Parser characterizations (claim C6) -/

/-- Specification-side description of the prompt section: the lines
strictly after the first line containing `PROMPT:` and strictly before
the first subsequent terminator line. -/
def promptSectionOf : List String → List String
  | [] => []
  | l :: rest =>
    if isPromptMarker l then rest.takeWhile (fun x => !(isTermLine x))
    else promptSectionOf rest

/-- Specification-side description of the lines an alternative block
retains: non-blank lines that are not `[Focus: ...]` explanations. -/
def retainedAltLines (ls : List String) : List String :=
  ls.filter (fun l => !(pyStrip l == "") && !(isFocusLine l))

theorem extractPromptLines_no_marker_off (ls : List String)
    (h : ∀ l ∈ ls, isPromptMarker l = false) : extractPromptLines ls false = [] := by
  induction ls with
  | nil => rfl
  | cons l rest ih =>
    have hl := h l (List.mem_cons_self _ _)
    have hr : ∀ x ∈ rest, isPromptMarker x = false :=
      fun x hx => h x (List.mem_cons_of_mem _ hx)
    by_cases ht : isTermLine l = true <;>
      simp [extractPromptLines, hl, ht, ih hr]

theorem extractPromptLines_no_marker_on (ls : List String)
    (h : ∀ l ∈ ls, isPromptMarker l = false) :
    extractPromptLines ls true = ls.takeWhile (fun x => !(isTermLine x)) := by
  induction ls with
  | nil => rfl
  | cons l rest ih =>
    have hl := h l (List.mem_cons_self _ _)
    have hr : ∀ x ∈ rest, isPromptMarker x = false :=
      fun x hx => h x (List.mem_cons_of_mem _ hx)
    by_cases ht : isTermLine l = true
    · simp [extractPromptLines, hl, ht, List.takeWhile_cons,
        extractPromptLines_no_marker_off rest hr]
    · simp [extractPromptLines, hl, ht, List.takeWhile_cons, ih hr]

theorem extractPromptLines_single_marker (ls : List String)
    (h : ls.countP (fun l => isPromptMarker l) ≤ 1) :
    extractPromptLines ls false = promptSectionOf ls := by
  induction ls with
  | nil => rfl
  | cons l rest ih =>
    by_cases hl : isPromptMarker l = true
    · have hz : rest.countP (fun l => isPromptMarker l) = 0 := by
        rw [List.countP_cons] at h
        simp only [hl, if_true] at h
        omega
      have hr : ∀ x ∈ rest, isPromptMarker x = false := by
        intro x hx
        have := (List.countP_eq_zero).mp hz x hx
        simpa using this
      simp [extractPromptLines, promptSectionOf, hl,
        extractPromptLines_no_marker_on rest hr]
    · have hle : rest.countP (fun l => isPromptMarker l) ≤ 1 := by
        have hl2 : isPromptMarker l = false := by
          simpa using hl
        rw [List.countP_cons] at h
        simp only [hl2, Bool.false_eq_true, if_false] at h
        omega
      by_cases ht : isTermLine l = true <;>
        simp [extractPromptLines, promptSectionOf, hl, ht, ih hle]

theorem extractAltsLoop_no_marker_off (ls : List String)
    (h : ∀ l ∈ ls, isAltMarker l = false) :
    ∀ cur : List String, extractAltsLoop ls cur false = [] := by
  induction ls with
  | nil => intro cur; rfl
  | cons l rest ih =>
    intro cur
    have hl := h l (List.mem_cons_self _ _)
    have hr : ∀ x ∈ rest, isAltMarker x = false :=
      fun x hx => h x (List.mem_cons_of_mem _ hx)
    simp [extractAltsLoop, hl, ih hr]

theorem extractAltsLoop_no_marker_on (ls : List String)
    (h : ∀ l ∈ ls, isAltMarker l = false) :
    ∀ cur : List String, extractAltsLoop ls cur true = flushAlt (cur ++ retainedAltLines ls) := by
  induction ls with
  | nil => intro cur; simp [extractAltsLoop, retainedAltLines]
  | cons l rest ih =>
    intro cur
    have hl := h l (List.mem_cons_self _ _)
    have hr : ∀ x ∈ rest, isAltMarker x = false :=
      fun x hx => h x (List.mem_cons_of_mem _ hx)
    by_cases hb : pyStrip l = ""
    · simp [extractAltsLoop, hl, hb, ih hr, retainedAltLines]
    · by_cases hf : isFocusLine l = true
      · simp [extractAltsLoop, hl, hb, hf, ih hr, retainedAltLines]
      · simp [extractAltsLoop, hl, hb, hf, ih hr, retainedAltLines, List.filter_cons]

theorem extractAltsLoop_skip_prelude (pre : List String)
    (h : ∀ l ∈ pre, isAltMarker l = false) (ls : List String) :
    extractAltsLoop (pre ++ ls) [] false = extractAltsLoop ls [] false := by
  induction pre with
  | nil => rfl
  | cons l rest ih =>
    have hl := h l (List.mem_cons_self _ _)
    have hr : ∀ x ∈ rest, isAltMarker x = false :=
      fun x hx => h x (List.mem_cons_of_mem _ hx)
    simp [extractAltsLoop, hl, ih hr]

/-- Claim C6 (amended): the prompt parser re-enters the section at every
line containing `PROMPT:`; restricted to responses with at most one such
line it returns exactly the lines strictly after that line and strictly
before the first subsequent terminator line, joined and stripped (empty
when there is no marker line).  The alternatives parser returns the empty
list when no line contains both `ALTERNATIVE` and `:`; around a single
marker line it returns the following non-blank, non-`[Focus: ...]` lines
joined and stripped as the only candidate — no candidate at all when no
such line follows the marker. -/
theorem C6_parser_sections (ls : List String) (r : String)
    (pre post : List String) (m : String) :
    (ls.countP (fun l => isPromptMarker l) ≤ 1 →
      extractPromptLines ls false = promptSectionOf ls) ∧
    (r ≠ "" → (splitLines r).countP (fun l => isPromptMarker l) ≤ 1 →
      extractPromptFromResponse r = pyStrip (joinNL (promptSectionOf (splitLines r)))) ∧
    ((∀ l ∈ splitLines r, isAltMarker l = false) → extractAlternatives r = []) ∧
    ((∀ l ∈ pre, isAltMarker l = false) → isAltMarker m = true →
      (∀ l ∈ post, isAltMarker l = false) →
      extractAltsLoop (pre ++ m :: post) [] false = flushAlt (retainedAltLines post)) := by
  refine ⟨extractPromptLines_single_marker ls, ?_, ?_, ?_⟩
  · intro hr hc
    rw [extractPromptFromResponse, if_neg hr, extractPromptLines_single_marker _ hc]
  · intro h
    by_cases hr : r = ""
    · simp [extractAlternatives, hr]
    · rw [extractAlternatives, if_neg hr, extractAltsLoop_no_marker_off _ h]
  · intro hpre hm hpost
    rw [extractAltsLoop_skip_prelude pre hpre]
    have : extractAltsLoop (m :: post) [] false =
        extractAltsLoop post [] true := by
      simp [extractAltsLoop, hm]
    rw [this, extractAltsLoop_no_marker_on post hpost]
    simp

/-- Claim C6 counterexample: a second `PROMPT:` line re-opens the section,
so the parser returns lines from both sections rather than only the ones
after the first marker and before the first terminator; and an
`ALTERNATIVE` marker followed only by a `[Focus: ...]` line yields no
candidate even though non-blank content follows the marker. -/
theorem C6_counterexample :
    extractPromptFromResponse "PROMPT:\nA\nDESIGN_PRINCIPLES:\nX\nPROMPT:\nB" = "A\nB" ∧
    extractPromptFromResponse "PROMPT:\nA\nDESIGN_PRINCIPLES:\nX\nPROMPT:\nB" ≠ "A" ∧
    extractAlternatives "ALTERNATIVE 1: x\n[Focus: clarity]" = [] := by
  decide

/-- Claim C6 witness: both characterizations evaluated on concrete
responses. -/
theorem C6_witness :
    extractPromptFromResponse "intro\nPROMPT:\nDo this.\nDESIGN_PRINCIPLES:\nwhy" =
      pyStrip (joinNL (promptSectionOf
        (splitLines "intro\nPROMPT:\nDo this.\nDESIGN_PRINCIPLES:\nwhy"))) ∧
    extractAlternatives "plain text\nwith no markers" = [] ∧
    extractAltsLoop (["preamble"] ++ "ALTERNATIVE 1: x" :: ["[Focus: c]", "kept line"]) [] false =
      flushAlt (retainedAltLines ["[Focus: c]", "kept line"]) :=
  ⟨(C6_parser_sections [] "intro\nPROMPT:\nDo this.\nDESIGN_PRINCIPLES:\nwhy"
      [] [] "").2.1 (by decide) (by decide),
   (C6_parser_sections [] "plain text\nwith no markers" [] [] "").2.2.1 (by decide),
   (C6_parser_sections [] "" ["preamble"] ["[Focus: c]", "kept line"]
      "ALTERNATIVE 1: x").2.2.2 (by decide) (by decide) (by decide)⟩

/-! ## Stripping is idempotent (for claim C10) -/

theorem dropWhile_head_false (p : Char → Bool) (l : List Char) (c : Char) (t : List Char)
    (h : l.dropWhile p = c :: t) : p c = false := by
  induction l with
  | nil => cases h
  | cons a as ih =>
    rw [List.dropWhile_cons] at h
    by_cases ha : p a = true
    · rw [if_pos ha] at h
      exact ih h
    · rw [if_neg ha] at h
      injection h with h1 h2
      rw [← h1]
      simpa using ha

theorem dropWhile_idem (p : Char → Bool) (l : List Char) :
    (l.dropWhile p).dropWhile p = l.dropWhile p := by
  cases hd : l.dropWhile p with
  | nil => rfl
  | cons c t =>
    rw [List.dropWhile_cons]
    simp [dropWhile_head_false p l c t hd]

theorem getLast?_dropWhile (p : Char → Bool) (l : List Char)
    (h : l.dropWhile p ≠ []) : (l.dropWhile p).getLast? = l.getLast? := by
  induction l with
  | nil => exact absurd rfl h
  | cons a as ih =>
    rw [List.dropWhile_cons]
    by_cases ha : p a = true
    · rw [List.dropWhile_cons, if_pos ha] at h
      rw [if_pos ha, ih h]
      cases hx : as with
      | nil =>
        rw [hx] at h
        exact absurd rfl h
      | cons b bs => simp
    · rw [if_neg ha]

theorem dropWhile_reverse_dropWhile (p : Char → Bool) (l : List Char) :
    (((l.dropWhile p).reverse.dropWhile p).reverse).dropWhile p =
      ((l.dropWhile p).reverse.dropWhile p).reverse := by
  cases hBr : ((l.dropWhile p).reverse.dropWhile p).reverse with
  | nil => rfl
  | cons c t =>
    have hBne : (l.dropWhile p).reverse.dropWhile p ≠ [] := by
      intro hb
      rw [hb] at hBr
      cases hBr
    have hc : ((l.dropWhile p).reverse.dropWhile p).reverse.head? = some c := by
      rw [hBr]
      rfl
    rw [List.head?_reverse, getLast?_dropWhile p (l.dropWhile p).reverse hBne,
      List.getLast?_reverse] at hc
    have hpc : p c = false := by
      cases hAc : l.dropWhile p with
      | nil =>
        rw [hAc] at hc
        cases hc
      | cons x xs =>
        rw [hAc] at hc
        injection hc with h3
        rw [← h3]
        exact dropWhile_head_false p l x xs hAc
    rw [List.dropWhile_cons]
    simp [hpc]

theorem trimC_idem (l : List Char) : trimC (trimC l) = trimC l := by
  have h1 : (trimC l).dropWhile pyIsSpace = trimC l :=
    dropWhile_reverse_dropWhile pyIsSpace l
  have h2 : trimC (trimC l) =
      (((trimC l).dropWhile pyIsSpace).reverse.dropWhile pyIsSpace).reverse := rfl
  rw [h2, h1]
  have h3 : (trimC l).reverse = (l.dropWhile pyIsSpace).reverse.dropWhile pyIsSpace := by
    show (((l.dropWhile pyIsSpace).reverse.dropWhile pyIsSpace).reverse).reverse = _
    rw [List.reverse_reverse]
  rw [h3, dropWhile_idem]
  rfl

theorem pyStrip_idem (s : String) : pyStrip (pyStrip s) = pyStrip s := by
  show String.mk (trimC (trimC s.data)) = String.mk (trimC s.data)
  rw [trimC_idem]

/-! ## Claim C10: alternatives produced by a successful improve call -/

theorem mem_flushAlt (cur : List String) (t : String) (h : t ∈ flushAlt cur) :
    ∃ x, t = pyStrip x ∧ t ≠ "" := by
  unfold flushAlt at h
  by_cases hc : cur.isEmpty = true
  · rw [if_pos hc] at h
    cases h
  · rw [if_neg hc] at h
    by_cases ht : pyStrip (joinNL cur) = ""
    · rw [if_pos ht] at h
      cases h
    · rw [if_neg ht] at h
      rw [List.mem_singleton.mp h]
      exact ⟨joinNL cur, rfl, ht⟩

theorem mem_extractAltsLoop (ls : List String) :
    ∀ (cur : List String) (inAlt : Bool) (t : String),
      t ∈ extractAltsLoop ls cur inAlt → ∃ x, t = pyStrip x ∧ t ≠ "" := by
  induction ls with
  | nil =>
    intro cur inAlt t h
    unfold extractAltsLoop at h
    by_cases hA : inAlt = true
    · rw [if_pos hA] at h
      exact mem_flushAlt cur t h
    · rw [if_neg hA] at h
      cases h
  | cons l rest ih =>
    intro cur inAlt t h
    unfold extractAltsLoop at h
    by_cases hm : isAltMarker l = true
    · rw [if_pos hm] at h
      rcases List.mem_append.mp h with h | h
      · by_cases hA : inAlt = true
        · rw [if_pos hA] at h
          exact mem_flushAlt cur t h
        · rw [if_neg hA] at h
          cases h
      · exact ih [] true t h
    · rw [if_neg hm] at h
      by_cases hg : (inAlt && !(pyStrip l == "")) = true
      · rw [if_pos hg] at h
        by_cases hf : isFocusLine l = true
        · rw [if_pos hf] at h
          exact ih cur inAlt t h
        · rw [if_neg hf] at h
          exact ih (cur ++ [l]) inAlt t h
      · rw [if_neg hg] at h
        exact ih cur inAlt t h

/-- Claim C10: when the improve stage's model call succeeds, the stored
`alternative_prompts` list is non-empty — `[current_prompt]` when the
parser found nothing — and every candidate returned by the alternatives
parser is already stripped and non-blank. -/
theorem C10_improve_success_nonempty :
    (∀ (s : PromptOptimizerState) (content : String),
      s.current_prompt ≠ "" → s.evaluations ≠ [] →
      ∃ u : StateUpdate, (generateImprovedPrompts s (Except.ok content)).1 = Except.ok u ∧
        ∃ l, u.alternative_prompts = some l ∧ l ≠ []) ∧
    (∀ r t, t ∈ extractAlternatives r → pyStrip t = t ∧ pyStrip t ≠ "") := by
  constructor
  · intro s content h1 h2
    have hev : s.evaluations.isEmpty = false := by
      cases hx : s.evaluations with
      | nil => exact absurd hx h2
      | cons a as => rfl
    have hres : (generateImprovedPrompts s (Except.ok content)).1 =
        Except.ok
          { messages := [content],
            alternative_prompts :=
              some (if (extractAlternatives content).isEmpty then [s.current_prompt]
                    else extractAlternatives content),
            step := some "alternatives_generated" } := by
      unfold generateImprovedPrompts
      rw [if_neg h1]
      simp [hev]
    refine ⟨_, hres, _, rfl, ?_⟩
    by_cases ha : (extractAlternatives content).isEmpty = true
    · simp [ha]
    · rw [if_neg ha]
      intro hx
      apply ha
      rw [hx]
      rfl
  · intro r t h
    have hmem : ∃ x, t = pyStrip x ∧ t ≠ "" := by
      unfold extractAlternatives at h
      by_cases hr : r = ""
      · rw [if_pos hr] at h
        cases h
      · rw [if_neg hr] at h
        exact mem_extractAltsLoop (splitLines r) [] false t h
    obtain ⟨x, rfl, hne⟩ := hmem
    exact ⟨pyStrip_idem x, by rw [pyStrip_idem]; exact hne⟩

/-- Claim C10 witness: a successful improve call on a concrete state, and
the parsed candidates of a concrete response. -/
theorem C10_witness :
    (∃ u : StateUpdate,
      (generateImprovedPrompts (mkState "r" "p" ["e"] []) (Except.ok "no markers")).1 =
        Except.ok u ∧ ∃ l, u.alternative_prompts = some l ∧ l ≠ []) ∧
    (pyStrip "first text" = "first text" ∧ pyStrip "first text" ≠ "") :=
  ⟨C10_improve_success_nonempty.1 (mkState "r" "p" ["e"] []) "no markers"
      (by decide) (by decide),
   C10_improve_success_nonempty.2 "ALTERNATIVE 1: x\nfirst text" "first text"
      (by decide)⟩

/-! ## Claim C7: determinism modulo the model oracle -/

/-- A well-behaved node: it makes at most one model call, and whenever it
makes none its output does not depend on the response offered to it. -/
def NodeOK (f : NodeFun) : Prop :=
  (∀ s r, (f s r).2 ≤ 1) ∧
  (∀ s r r2, (f s r).2 = 0 → f s r = f s r2)

theorem runSeqC_cons_fst (f : NodeFun) (fs : List NodeFun)
    (s : PromptOptimizerState) (rs : List ModelResult) :
    (runSeqC (f :: fs) s rs).1 =
      (runSeqC fs (applyUpdate s (f s (headResult rs)).1)
        (rs.drop (f s (headResult rs)).2)).1 := rfl

theorem runSeqC_cons_cnt (f : NodeFun) (fs : List NodeFun)
    (s : PromptOptimizerState) (rs : List ModelResult) :
    (runSeqC (f :: fs) s rs).2.2 =
      (f s (headResult rs)).2 +
        (runSeqC fs (applyUpdate s (f s (headResult rs)).1)
          (rs.drop (f s (headResult rs)).2)).2.2 := rfl

theorem take_succ_head_drop (rs1 rs2 : List ModelResult) (k : Nat)
    (h : rs1.take (k + 1) = rs2.take (k + 1)) :
    headResult rs1 = headResult rs2 ∧ (rs1.drop 1).take k = (rs2.drop 1).take k := by
  cases rs1 with
  | nil =>
    cases rs2 with
    | nil => exact ⟨rfl, by simp⟩
    | cons b bs => simp [List.take_succ_cons] at h
  | cons a as =>
    cases rs2 with
    | nil => simp [List.take_succ_cons] at h
    | cons b bs =>
      rw [List.take_succ_cons, List.take_succ_cons] at h
      injection h with h1 h2
      rw [h1]
      exact ⟨rfl, by simpa using h2⟩

theorem nodeOK_generateGuide : NodeOK generateGuideNode := by
  constructor
  · intro s r
    by_cases h : s.role = ""
    · simp [generateGuideNode, generatePromptEngineeringGuide, h]
    · cases r <;> simp [generateGuideNode, generatePromptEngineeringGuide, h]
  · intro s r r2 h0
    by_cases h : s.role = ""
    · simp [generateGuideNode, generatePromptEngineeringGuide, h]
    · exfalso
      cases r <;> simp [generateGuideNode, generatePromptEngineeringGuide, h] at h0

theorem nodeOK_generateEvalGuide : NodeOK generateEvalGuideNode := by
  constructor
  · intro s r
    by_cases h : s.role = ""
    · simp [generateEvalGuideNode, generateEvaluationGuide, h]
    · cases r <;> simp [generateEvalGuideNode, generateEvaluationGuide, h]
  · intro s r r2 h0
    by_cases h : s.role = ""
    · simp [generateEvalGuideNode, generateEvaluationGuide, h]
    · exfalso
      cases r <;> simp [generateEvalGuideNode, generateEvaluationGuide, h] at h0

theorem nodeOK_evaluatePrompt : NodeOK evaluatePromptNode := by
  constructor
  · intro s r
    by_cases h : s.current_prompt = ""
    · simp [evaluatePromptNode, evaluatePrompt, h]
    · cases r <;> simp [evaluatePromptNode, evaluatePrompt, h]
  · intro s r r2 h0
    by_cases h : s.current_prompt = ""
    · simp [evaluatePromptNode, evaluatePrompt, h]
    · exfalso
      cases r <;> simp [evaluatePromptNode, evaluatePrompt, h] at h0

theorem nodeOK_improvePrompts : NodeOK improvePromptsNode := by
  constructor
  · intro s r
    by_cases h1 : s.current_prompt = ""
    · simp [improvePromptsNode, generateImprovedPrompts, h1]
    · by_cases h2 : s.evaluations.isEmpty = true
      · simp [improvePromptsNode, generateImprovedPrompts, h1, h2]
      · cases r <;> simp [improvePromptsNode, generateImprovedPrompts, h1, h2]
  · intro s r r2 h0
    by_cases h1 : s.current_prompt = ""
    · simp [improvePromptsNode, generateImprovedPrompts, h1]
    · by_cases h2 : s.evaluations.isEmpty = true
      · simp [improvePromptsNode, generateImprovedPrompts, h1, h2]
      · exfalso
        cases r <;> simp [improvePromptsNode, generateImprovedPrompts, h1, h2] at h0

theorem nodeOK_generatePrompt (parse : String → Option (List String)) :
    NodeOK (generatePromptNode parse) := by
  constructor
  · intro s r
    by_cases he : s.examples.isEmpty = true
    · cases r <;> simp [generatePromptNode, generatePromptFromExamples, he]
    · rcases hc : collectVarsAux parse s.examples [] with e | v
      · simp [generatePromptNode, generatePromptFromExamples, he, hc]
      · by_cases ht : pyStrip (joinSep "\n\n" (examplesTextAux 0 s.examples)) = ""
        · simp [generatePromptNode, generatePromptFromExamples, he, hc, ht]
        · cases r <;> simp [generatePromptNode, generatePromptFromExamples, he, hc, ht]
  · intro s r r2 h0
    by_cases he : s.examples.isEmpty = true
    · exfalso
      cases r <;> simp [generatePromptNode, generatePromptFromExamples, he] at h0
    · rcases hc : collectVarsAux parse s.examples [] with e | v
      · simp [generatePromptNode, generatePromptFromExamples, he, hc]
      · by_cases ht : pyStrip (joinSep "\n\n" (examplesTextAux 0 s.examples)) = ""
        · simp [generatePromptNode, generatePromptFromExamples, he, hc, ht]
        · exfalso
          cases r <;> simp [generatePromptNode, generatePromptFromExamples, he, hc, ht] at h0

theorem nodeOK_finalize : NodeOK finalizeNode := by
  exact ⟨fun s r => Nat.zero_le 1, fun s r r2 _ => rfl⟩

theorem nodeFuns_ok (parse : String → Option (List String)) :
    ∀ f ∈ nodeFuns parse, NodeOK f := by
  intro f hf
  fin_cases hf
  · exact nodeOK_generateGuide
  · exact nodeOK_generatePrompt parse
  · exact nodeOK_generateEvalGuide
  · exact nodeOK_evaluatePrompt
  · exact nodeOK_improvePrompts
  · exact nodeOK_finalize

theorem runSeqC_det : ∀ (fs : List NodeFun), (∀ f ∈ fs, NodeOK f) →
    ∀ (s : PromptOptimizerState) (rs1 rs2 : List ModelResult),
      rs1.take (runSeqC fs s rs1).2.2 = rs2.take (runSeqC fs s rs1).2.2 →
      (runSeqC fs s rs1).1 = (runSeqC fs s rs2).1 ∧
      (runSeqC fs s rs1).2.2 = (runSeqC fs s rs2).2.2 := by
  intro fs
  induction fs with
  | nil => intro _ s rs1 rs2 _; exact ⟨rfl, rfl⟩
  | cons f fs ih =>
    intro hok s rs1 rs2 h
    have hf : NodeOK f := hok f (List.mem_cons_self _ _)
    have hfs : ∀ g ∈ fs, NodeOK g := fun g hg => hok g (List.mem_cons_of_mem f hg)
    have h01 : (f s (headResult rs1)).2 = 0 ∨ (f s (headResult rs1)).2 = 1 := by
      have := hf.1 s (headResult rs1)
      omega
    rcases h01 with h0 | h1
    · have hstep : f s (headResult rs1) = f s (headResult rs2) :=
        hf.2 s (headResult rs1) (headResult rs2) h0
      rw [runSeqC_cons_cnt, h0, Nat.zero_add, List.drop_zero] at h
      have key := ih hfs (applyUpdate s (f s (headResult rs1)).1) rs1 rs2 ?_
      · constructor
        · rw [runSeqC_cons_fst, runSeqC_cons_fst, ← hstep, h0, List.drop_zero,
            List.drop_zero]
          exact key.1
        · rw [runSeqC_cons_cnt, runSeqC_cons_cnt, ← hstep, h0, Nat.zero_add,
            Nat.zero_add, List.drop_zero, List.drop_zero]
          exact key.2
      · exact h
    · rw [runSeqC_cons_cnt, h1] at h
      rw [Nat.add_comm 1 _] at h
      obtain ⟨hhead, htail⟩ := take_succ_head_drop rs1 rs2 _ h
      have hstep : f s (headResult rs1) = f s (headResult rs2) := by rw [hhead]
      have key := ih hfs (applyUpdate s (f s (headResult rs1)).1) (rs1.drop 1) (rs2.drop 1) ?_
      · constructor
        · rw [runSeqC_cons_fst, runSeqC_cons_fst, ← hstep, h1]
          exact key.1
        · rw [runSeqC_cons_cnt, runSeqC_cons_cnt, ← hstep, h1]
          rw [Nat.add_comm 1 _, Nat.add_comm 1 _]
          exact congrArg (fun n => n + 1) key.2
      · exact htail

/-- Claim C7: every stage is a pure function of the accumulated state and
the model's responses: two pipeline runs from the same state whose
response oracles agree on the prefix the first run actually consumes
produce the same final state and the same number of model calls. -/
theorem C7_deterministic_modulo_oracle (parse : String → Option (List String))
    (s : PromptOptimizerState) (rs1 rs2 : List ModelResult)
    (h : rs1.take (pipelineCalls parse s rs1) = rs2.take (pipelineCalls parse s rs1)) :
    runPipeline parse s rs1 = runPipeline parse s rs2 ∧
    pipelineCalls parse s rs1 = pipelineCalls parse s rs2 :=
  runSeqC_det (nodeFuns parse) (nodeFuns_ok parse) s rs1 rs2 h

/-- Claim C7 witness: a concrete run consuming five responses is
unchanged when the oracle is extended with an extra unused response. -/
theorem C7_witness :
    runPipeline (fun _ => none) (mkState "devs" "" [] [])
        [Except.ok "guide", Except.ok "PROMPT:\nHello", Except.ok "eval guide",
         Except.ok "solid evaluation", Except.ok "improvement text"] =
      runPipeline (fun _ => none) (mkState "devs" "" [] [])
        [Except.ok "guide", Except.ok "PROMPT:\nHello", Except.ok "eval guide",
         Except.ok "solid evaluation", Except.ok "improvement text", Except.error "extra"] ∧
    pipelineCalls (fun _ => none) (mkState "devs" "" [] [])
        [Except.ok "guide", Except.ok "PROMPT:\nHello", Except.ok "eval guide",
         Except.ok "solid evaluation", Except.ok "improvement text"] =
      pipelineCalls (fun _ => none) (mkState "devs" "" [] [])
        [Except.ok "guide", Except.ok "PROMPT:\nHello", Except.ok "eval guide",
         Except.ok "solid evaluation", Except.ok "improvement text", Except.error "extra"] :=
  C7_deterministic_modulo_oracle (fun _ => none) (mkState "devs" "" [] [])
    [Except.ok "guide", Except.ok "PROMPT:\nHello", Except.ok "eval guide",
     Except.ok "solid evaluation", Except.ok "improvement text"]
    [Except.ok "guide", Except.ok "PROMPT:\nHello", Except.ok "eval guide",
     Except.ok "solid evaluation", Except.ok "improvement text", Except.error "extra"]
    (by decide)

/-! ## Claim C8: request validation happens before any stage runs -/

theorem validateExamples_none_checks (parse : String → Option (List String)) :
    ∀ (exs : List ExampleKV) (ff : Option (List String)) (i : Nat),
      validateExamples parse exs ff i = none →
      ∀ ex ∈ exs, pyStrip ex.input ≠ "" ∧ pyStrip ex.output ≠ "" ∧
        ∃ fs, parse ex.input = some fs := by
  intro exs
  induction exs with
  | nil => intro ff i _ ex hex; cases hex
  | cons e rest ih =>
    intro ff i hv ex hex
    unfold validateExamples at hv
    by_cases hio : (pyStrip e.input = "" || pyStrip e.output = "") = true
    · rw [if_pos hio] at hv
      cases hv
    · rw [if_neg hio] at hv
      have hio2 : pyStrip e.input ≠ "" ∧ pyStrip e.output ≠ "" := by
        constructor <;> (intro hx; apply hio; simp [hx])
      rcases hp : parse e.input with _ | fields
      · rw [hp] at hv
        cases hv
      · rw [hp] at hv
        rcases List.mem_cons.mp hex with rfl | hex2
        · exact ⟨hio2.1, hio2.2, fields, hp⟩
        · cases ff with
          | none => exact ih (some fields) (i + 1) hv ex hex2
          | some ff0 =>
            dsimp only at hv
            by_cases hfe : fieldSetEq fields ff0 = true
            · rw [if_pos hfe] at hv
              exact ih (some ff0) (i + 1) hv ex hex2
            · rw [if_neg hfe] at hv
              cases hv

theorem validateExamples_none_consistent (parse : String → Option (List String)) :
    ∀ (exs : List ExampleKV) (ff0 : List String) (i : Nat),
      validateExamples parse exs (some ff0) i = none →
      ∀ ex ∈ exs, ∀ fs, parse ex.input = some fs → fieldSetEq fs ff0 = true := by
  intro exs
  induction exs with
  | nil => intro ff0 i _ ex hex; cases hex
  | cons e rest ih =>
    intro ff0 i hv ex hex fs hfs
    unfold validateExamples at hv
    by_cases hio : (pyStrip e.input = "" || pyStrip e.output = "") = true
    · rw [if_pos hio] at hv
      cases hv
    · rw [if_neg hio] at hv
      rcases hp : parse e.input with _ | fields
      · rw [hp] at hv
        cases hv
      · rw [hp] at hv
        dsimp only at hv
        by_cases hfe : fieldSetEq fields ff0 = true
        · rw [if_pos hfe] at hv
          rcases List.mem_cons.mp hex with rfl | hex2
          · rw [hp] at hfs
            injection hfs with hfs2
            rw [← hfs2]
            exact hfe
          · exact ih ff0 (i + 1) hv ex hex2 fs hfs
        · rw [if_neg hfe] at hv
          cases hv

theorem validateExamples_none_first (parse : String → Option (List String))
    (e : ExampleKV) (rest : List ExampleKV) (i : Nat)
    (hv : validateExamples parse (e :: rest) none i = none) :
    ∃ f1, parse e.input = some f1 ∧ validateExamples parse rest (some f1) (i + 1) = none := by
  unfold validateExamples at hv
  by_cases hio : (pyStrip e.input = "" || pyStrip e.output = "") = true
  · rw [if_pos hio] at hv
    cases hv
  · rw [if_neg hio] at hv
    rcases hp : parse e.input with _ | fields
    · rw [hp] at hv
      cases hv
    · rw [hp] at hv
      exact ⟨fields, rfl, hv⟩

/-- Claim C8: `optimize_prompt` validates the request before running any
stage: a blank role, an example with blank input or output, an example
input that is not a JSON object, or an example whose field-name set
differs from the first example's, each make it raise `ValueError` with
zero model invocations performed. -/
theorem C8_validation_before_workflow (parse : String → Option (List String))
    (req : PromptRequest) (rs : List ModelResult)
    (hbad : pyStrip req.role = "" ∨
      (∃ ex ∈ req.examples,
        pyStrip ex.input = "" ∨ pyStrip ex.output = "" ∨ parse ex.input = none) ∨
      (∃ e1 rest, req.examples = e1 :: rest ∧
        (∀ f1, parse e1.input = some f1 →
          ∃ ex ∈ rest, ∃ fs, parse ex.input = some fs ∧ fieldSetEq fs f1 = false))) :
    (∃ e, (optimizePrompt parse req rs).1 = Except.error e) ∧
    (optimizePrompt parse req rs).2 = 0 := by
  by_cases hrole : pyStrip req.role = ""
  · unfold optimizePrompt
    rw [if_pos hrole]
    exact ⟨⟨_, rfl⟩, rfl⟩
  · have hv : validateExamples parse req.examples none 0 ≠ none := by
      intro hnone
      rcases hbad with hbad | hbad | hbad
      · exact hrole hbad
      · obtain ⟨ex, hex, hcase⟩ := hbad
        have hchk := validateExamples_none_checks parse req.examples none 0 hnone ex hex
        rcases hcase with hc | hc | hc
        · exact hchk.1 hc
        · exact hchk.2.1 hc
        · obtain ⟨fs, hfs⟩ := hchk.2.2
          rw [hc] at hfs
          cases hfs
      · obtain ⟨e1, rest, hexs, hmis⟩ := hbad
        rw [hexs] at hnone
        obtain ⟨f1, hf1, hrest⟩ := validateExamples_none_first parse e1 rest 0 hnone
        obtain ⟨ex, hex, fs, hfs, hfe⟩ := hmis f1 hf1
        have := validateExamples_none_consistent parse rest f1 1 hrest ex hex fs hfs
        rw [this] at hfe
        cases hfe
    unfold optimizePrompt
    rw [if_neg hrole]
    rcases hvv : validateExamples parse req.examples none 0 with _ | e
    · exact absurd hvv hv
    · exact ⟨⟨e, rfl⟩, rfl⟩

/-- Claim C8 witness: a request whose second example drops a JSON field
is rejected with zero model calls made. -/
theorem C8_witness :
    (∃ e, (optimizePrompt
        (fun s => if s = "in2" then some ["a"] else some ["a", "b"])
        { role := "devs", basic_requirements := "req",
          examples := [{ input := "in1", output := "o1" },
                       { input := "in2", output := "o2" }] }
        [Except.ok "unused"]).1 = Except.error e) ∧
    (optimizePrompt
        (fun s => if s = "in2" then some ["a"] else some ["a", "b"])
        { role := "devs", basic_requirements := "req",
          examples := [{ input := "in1", output := "o1" },
                       { input := "in2", output := "o2" }] }
        [Except.ok "unused"]).2 = 0 :=
  C8_validation_before_workflow
    (fun s => if s = "in2" then some ["a"] else some ["a", "b"])
    { role := "devs", basic_requirements := "req",
      examples := [{ input := "in1", output := "o1" },
                   { input := "in2", output := "o2" }] }
    [Except.ok "unused"]
    (Or.inr (Or.inr ⟨{ input := "in1", output := "o1" },
      [{ input := "in2", output := "o2" }], rfl,
      fun f1 hf1 => ⟨{ input := "in2", output := "o2" }, by decide,
        ["a"], by decide, by
          have hf2 : f1 = ["a", "b"] := by
            simpa using hf1.symm
          rw [hf2]
          decide⟩⟩))

end PromptAgent
